import Mathlib

/-!
Verification of the Monte Carlo portfolio-projection engine of the
dashboard-investimentos repository, a shallow embedding of
`pages/Projeção_de_Carteira.py`.

Floating-point numbers of the Python source are modelled as real numbers;
the per-day standard-normal draws of `np.random.normal(0, 1)` are modelled
as an explicit shock table `shocks : ℕ → ℕ → ℝ` indexed by simulation index
and trading day, so that every theorem quantifies over all possible draws.
-/

noncomputable section

/-- State of one simulation path at one trading day: the mutable
`current_value` and `current_dividends` of the inner loop of
`run_monte_carlo_simulation`. -/
structure DayState where
  value : ℝ
  dividends : ℝ

/-- Body of the inner `for day in range(1, num_days + 1)` loop of
`run_monte_carlo_simulation`: apply the arithmetic daily return
`value *= (1 + drift + volatility * z)`, and on each day that is a
multiple of 21 compute the month's dividend on the post-return value,
accumulate it, add the monthly contribution, and add the dividend back
to the value only when `reinvest_dividends` is set. -/
def day_update (drift volatility dividend_yield monthly_contribution : ℝ)
    (reinvest_dividends : Bool) (day : ℕ) (z : ℝ) (s : DayState) : DayState :=
  let daily_return := drift + volatility * z
  let v := s.value * (1 + daily_return)
  if day % 21 = 0 then
    let monthly_dividend_return := (1 + dividend_yield) ^ ((1 : ℝ) / 12) - 1
    let dividends_this_month := v * monthly_dividend_return
    let d := s.dividends + dividends_this_month
    let v₁ := v + monthly_contribution
    let v₂ := if reinvest_dividends then v₁ + dividends_this_month else v₁
    ⟨v₂, d⟩
  else
    ⟨v, s.dividends⟩

/-- State of one simulation path after `day` iterations of the inner loop,
starting from `current_value = initial_value`, `current_dividends = 0`;
`z d` is the standard-normal draw of day `d`. -/
def path_state (initial_value drift volatility dividend_yield monthly_contribution : ℝ)
    (reinvest_dividends : Bool) (z : ℕ → ℝ) : ℕ → DayState
  | 0 => ⟨initial_value, 0⟩
  | d + 1 =>
      day_update drift volatility dividend_yield monthly_contribution reinvest_dividends
        (d + 1) (z (d + 1))
        (path_state initial_value drift volatility dividend_yield monthly_contribution
          reinvest_dividends z d)

/-- Embedding of `run_monte_carlo_simulation`: returns the pair
`(all_paths, accumulated_dividends)` as functions of trading day and
simulation index.  The Python matrices have shape
`(years * 252 + 1, num_simulations)`; the functions here are total, and
every theorem about the run restricts the day to `0 .. years * 252` and the
simulation index to `0 .. num_simulations - 1`.  Row 0 is the seeded row
(`all_paths[0] = initial_value`, dividends zero), matching `path_state _ 0`. -/
def run_monte_carlo_simulation (initial_value drift volatility dividend_yield : ℝ)
    (years : ℕ) (monthly_contribution : ℝ) (num_simulations : ℕ)
    (reinvest_dividends : Bool) (shocks : ℕ → ℕ → ℝ) :
    (ℕ → ℕ → ℝ) × (ℕ → ℕ → ℝ) :=
  (fun day i =>
     (path_state initial_value drift volatility dividend_yield monthly_contribution
        reinvest_dividends (shocks i) day).value,
   fun day i =>
     (path_state initial_value drift volatility dividend_yield monthly_contribution
        reinvest_dividends (shocks i) day).dividends)

/-- Embedding of the `st.sidebar.button("Rodar Simulação de Monte Carlo")`
handler: given the tuple returned by `get_portfolio_stats`, it shows an
error and runs no simulation when `initial_value == 0`, and otherwise calls
`run_monte_carlo_simulation` with the user-chosen options. -/
def simulate_button_handler (stats : ℝ × ℝ × ℝ × ℝ) (projection_years : ℕ)
    (monthly_contribution : ℝ) (num_simulations : ℕ) (reinvest_dividends : Bool)
    (shocks : ℕ → ℕ → ℝ) : Except String ((ℕ → ℕ → ℝ) × (ℕ → ℕ → ℝ)) :=
  if stats.1 = 0 then
    Except.error "Não foi possível calcular o valor inicial da sua carteira. Verifique os tickers."
  else
    Except.ok (run_monte_carlo_simulation stats.1 stats.2.1 stats.2.2.1 stats.2.2.2
      projection_years monthly_contribution num_simulations reinvest_dividends shocks)

/-- With zero drift, zero volatility and zero dividend yield and reinvestment
off, a path's value after `d` days is the initial value plus one monthly
contribution per completed 21-day month, whatever the random draws. -/
lemma path_state_flat_value (iv mc : ℝ) (z : ℕ → ℝ) (d : ℕ) :
    (path_state iv 0 0 0 mc false z d).value = iv + mc * (d / 21 : ℕ) := by
  induction d with
  | zero => simp [path_state]
  | succ n ih =>
      have hv : (path_state iv 0 0 0 mc false z (n + 1)).value
          = (path_state iv 0 0 0 mc false z n).value + (if (n + 1) % 21 = 0 then mc else 0) := by
        rw [path_state, day_update]
        by_cases h : (n + 1) % 21 = 0 <;> simp [h, Real.one_rpow]
      rw [hv, ih, Nat.succ_div]
      by_cases h : 21 ∣ n + 1
      · have hmod : (n + 1) % 21 = 0 := Nat.dvd_iff_mod_eq_zero.mp h
        simp only [h, if_true, hmod]
        push_cast
        ring
      · have hmod : (n + 1) % 21 ≠ 0 := fun hc =>
          h (Nat.dvd_iff_mod_eq_zero.mpr hc)
        simp only [h, if_false, hmod]
        push_cast
        ring

/-- One-day characterization of a path's value: day `n+1` applies the
arithmetic return to the previous value and, when `n+1` is a multiple of 21,
adds the contribution and (only under reinvestment) the month's dividend,
computed on the post-return value. -/
lemma path_state_succ_value (iv drift vol dy mc : ℝ) (ri : Bool) (z : ℕ → ℝ) (n : ℕ) :
    (path_state iv drift vol dy mc ri z (n + 1)).value =
      if (n + 1) % 21 = 0 then
        (path_state iv drift vol dy mc ri z n).value * (1 + (drift + vol * z (n + 1))) + mc +
          (if ri then
            (path_state iv drift vol dy mc ri z n).value * (1 + (drift + vol * z (n + 1))) *
              ((1 + dy) ^ ((1 : ℝ) / 12) - 1)
          else 0)
      else (path_state iv drift vol dy mc ri z n).value * (1 + (drift + vol * z (n + 1))) := by
  rw [path_state, day_update]
  by_cases h : (n + 1) % 21 = 0
  · simp only [h, if_true]
    cases ri <;> simp
  · simp only [h, if_false]

/-- One-day characterization of a path's cumulative dividends: unchanged on
ordinary days, increased by the month's dividend (computed on the post-return
value) on each day that is a multiple of 21, whether or not dividends are
reinvested. -/
lemma path_state_succ_dividends (iv drift vol dy mc : ℝ) (ri : Bool) (z : ℕ → ℝ) (n : ℕ) :
    (path_state iv drift vol dy mc ri z (n + 1)).dividends =
      (path_state iv drift vol dy mc ri z n).dividends +
        (if (n + 1) % 21 = 0 then
          (path_state iv drift vol dy mc ri z n).value * (1 + (drift + vol * z (n + 1))) *
            ((1 + dy) ^ ((1 : ℝ) / 12) - 1)
        else 0) := by
  rw [path_state, day_update]
  by_cases h : (n + 1) % 21 = 0 <;> simp [h, mul_assoc]

/-- C1: on every trading day `d` in `1 .. years*252` and for every simulation
index, the recorded value follows `value *= (1 + drift + volatility * z)` with
no clamping, and on every day that is a multiple of 21 the month's dividend
`value * ((1 + dividend_yield)^(1/12) - 1)` is computed on the post-return
value and accumulated, the monthly contribution is added, and the dividend is
added back to the value only when `reinvest_dividends` is set; both matrices
record their running quantities at `[d, i]`. -/
theorem C1_daily_update_rule (initial_value drift volatility dividend_yield : ℝ)
    (years : ℕ) (monthly_contribution : ℝ) (num_simulations : ℕ)
    (reinvest_dividends : Bool) (shocks : ℕ → ℕ → ℝ) (d i : ℕ)
    (hd1 : 1 ≤ d) (hd2 : d ≤ years * 252) (hi : i < num_simulations) :
    (run_monte_carlo_simulation initial_value drift volatility dividend_yield years
        monthly_contribution num_simulations reinvest_dividends shocks).1 d i =
      (if d % 21 = 0 then
        (run_monte_carlo_simulation initial_value drift volatility dividend_yield years
            monthly_contribution num_simulations reinvest_dividends shocks).1 (d - 1) i *
            (1 + (drift + volatility * shocks i d)) + monthly_contribution +
          (if reinvest_dividends then
            (run_monte_carlo_simulation initial_value drift volatility dividend_yield years
                monthly_contribution num_simulations reinvest_dividends shocks).1 (d - 1) i *
                (1 + (drift + volatility * shocks i d)) *
                ((1 + dividend_yield) ^ ((1 : ℝ) / 12) - 1)
          else 0)
      else
        (run_monte_carlo_simulation initial_value drift volatility dividend_yield years
            monthly_contribution num_simulations reinvest_dividends shocks).1 (d - 1) i *
            (1 + (drift + volatility * shocks i d))) ∧
    (run_monte_carlo_simulation initial_value drift volatility dividend_yield years
        monthly_contribution num_simulations reinvest_dividends shocks).2 d i =
      (run_monte_carlo_simulation initial_value drift volatility dividend_yield years
          monthly_contribution num_simulations reinvest_dividends shocks).2 (d - 1) i +
        (if d % 21 = 0 then
          (run_monte_carlo_simulation initial_value drift volatility dividend_yield years
              monthly_contribution num_simulations reinvest_dividends shocks).1 (d - 1) i *
              (1 + (drift + volatility * shocks i d)) *
              ((1 + dividend_yield) ^ ((1 : ℝ) / 12) - 1)
        else 0) := by
  obtain ⟨e, rfl⟩ : ∃ e, d = e + 1 := ⟨d - 1, by omega⟩
  simp only [Nat.add_sub_cancel]
  exact ⟨path_state_succ_value initial_value drift volatility dividend_yield
      monthly_contribution reinvest_dividends (shocks i) e,
    path_state_succ_dividends initial_value drift volatility dividend_yield
      monthly_contribution reinvest_dividends (shocks i) e⟩

/-- Witness for C1 at a concrete configuration and day 21. -/
theorem C1_daily_update_rule_witness :
    (run_monte_carlo_simulation 1000 0 0 0 1 5 1 false fun _ _ => 0).1 21 0 =
      (if 21 % 21 = 0 then
        (run_monte_carlo_simulation 1000 0 0 0 1 5 1 false fun _ _ => 0).1 (21 - 1) 0 *
            (1 + (0 + 0 * 0)) + 5 +
          (if false then
            (run_monte_carlo_simulation 1000 0 0 0 1 5 1 false fun _ _ => 0).1 (21 - 1) 0 *
                (1 + (0 + 0 * 0)) * ((1 + 0) ^ ((1 : ℝ) / 12) - 1)
          else 0)
      else
        (run_monte_carlo_simulation 1000 0 0 0 1 5 1 false fun _ _ => 0).1 (21 - 1) 0 *
          (1 + (0 + 0 * 0))) ∧
    (run_monte_carlo_simulation 1000 0 0 0 1 5 1 false fun _ _ => 0).2 21 0 =
      (run_monte_carlo_simulation 1000 0 0 0 1 5 1 false fun _ _ => 0).2 (21 - 1) 0 +
        (if 21 % 21 = 0 then
          (run_monte_carlo_simulation 1000 0 0 0 1 5 1 false fun _ _ => 0).1 (21 - 1) 0 *
            (1 + (0 + 0 * 0)) * ((1 + 0) ^ ((1 : ℝ) / 12) - 1)
        else 0) :=
  C1_daily_update_rule 1000 0 0 0 1 5 1 false (fun _ _ => 0) 21 0 (by norm_num) (by norm_num)
    (by norm_num)

/-- C2: in the deterministic scenario (initial 10000, zero drift, volatility
and yield, one year, contribution 100, no reinvestment, one simulation) the
day-252 value is exactly 11200, and the path steps up by exactly 100 on each
day that is a multiple of 21 while staying flat on all other days, for every
possible table of random draws. -/
theorem C2_deterministic_contribution_scenario (shocks : ℕ → ℕ → ℝ) (d : ℕ)
    (hd1 : 1 ≤ d) (hd2 : d ≤ 252) :
    (run_monte_carlo_simulation 10000 0 0 0 1 100 1 false shocks).1 252 0 = 11200 ∧
    (run_monte_carlo_simulation 10000 0 0 0 1 100 1 false shocks).1 d 0 =
      (run_monte_carlo_simulation 10000 0 0 0 1 100 1 false shocks).1 (d - 1) 0 +
        (if d % 21 = 0 then 100 else 0) := by
  constructor
  · show (path_state 10000 0 0 0 100 false (shocks 0) 252).value = 11200
    rw [path_state_flat_value]
    norm_num
  · obtain ⟨e, rfl⟩ : ∃ e, d = e + 1 := ⟨d - 1, by omega⟩
    show (path_state 10000 0 0 0 100 false (shocks 0) (e + 1)).value = _
    simp only [Nat.add_sub_cancel]
    show _ = (path_state 10000 0 0 0 100 false (shocks 0) e).value + _
    rw [path_state_flat_value, path_state_flat_value, Nat.succ_div]
    by_cases h : 21 ∣ e + 1
    · have hmod : (e + 1) % 21 = 0 := Nat.dvd_iff_mod_eq_zero.mp h
      simp only [h, if_true, hmod]
      push_cast
      ring
    · have hmod : (e + 1) % 21 ≠ 0 := fun hc => h (Nat.dvd_iff_mod_eq_zero.mpr hc)
      simp only [h, if_false, hmod]
      push_cast
      ring

/-- Witness for C2 at day 21. -/
theorem C2_deterministic_contribution_scenario_witness :
    (run_monte_carlo_simulation 10000 0 0 0 1 100 1 false fun _ _ => 0).1 252 0 = 11200 ∧
    (run_monte_carlo_simulation 10000 0 0 0 1 100 1 false fun _ _ => 0).1 21 0 =
      (run_monte_carlo_simulation 10000 0 0 0 1 100 1 false fun _ _ => 0).1 (21 - 1) 0 +
        (if 21 % 21 = 0 then 100 else 0) :=
  C2_deterministic_contribution_scenario (fun _ _ => 0) 21 (by norm_num) (by norm_num)

/-- C7: row 0 of the value matrix holds the initial value and row 0 of the
dividend matrix holds 0, for every simulation index of the run, exactly as
seeded before the day loop starts. -/
theorem C7_seed_row (initial_value drift volatility dividend_yield : ℝ) (years : ℕ)
    (monthly_contribution : ℝ) (num_simulations : ℕ) (reinvest_dividends : Bool)
    (shocks : ℕ → ℕ → ℝ) (i : ℕ) (hi : i < num_simulations) :
    (run_monte_carlo_simulation initial_value drift volatility dividend_yield years
        monthly_contribution num_simulations reinvest_dividends shocks).1 0 i = initial_value ∧
    (run_monte_carlo_simulation initial_value drift volatility dividend_yield years
        monthly_contribution num_simulations reinvest_dividends shocks).2 0 i = 0 :=
  ⟨rfl, rfl⟩

/-- Witness for C7 at a concrete configuration. -/
theorem C7_seed_row_witness :
    (run_monte_carlo_simulation 500 1 2 3 4 6 1 true fun _ _ => 0).1 0 0 = 500 ∧
    (run_monte_carlo_simulation 500 1 2 3 4 6 1 true fun _ _ => 0).2 0 0 = 0 :=
  C7_seed_row 500 1 2 3 4 6 1 true (fun _ _ => 0) 0 (by norm_num)

/-- With a zero dividend yield each month's dividend is zero, so the
reinvestment flag does not change the evolving path state. -/
lemma path_state_zero_yield_reinvest (iv drift vol mc : ℝ) (z : ℕ → ℝ) (d : ℕ) :
    path_state iv drift vol 0 mc true z d = path_state iv drift vol 0 mc false z d := by
  induction d with
  | zero => rfl
  | succ n ih =>
      rw [path_state, path_state, ih, day_update, day_update]
      by_cases h : (n + 1) % 21 = 0 <;> simp [h, Real.one_rpow]

/-- C8: with a zero blended dividend yield and the same inputs and draws,
running with `reinvest_dividends = true` yields exactly the same ensemble as
running with `reinvest_dividends = false`: reinvestment is gated on the
dividend yield, not on the contribution. -/
theorem C8_reinvestment_yield_gated (initial_value drift volatility : ℝ) (years : ℕ)
    (monthly_contribution : ℝ) (num_simulations : ℕ) (shocks : ℕ → ℕ → ℝ) :
    run_monte_carlo_simulation initial_value drift volatility 0 years monthly_contribution
        num_simulations true shocks =
      run_monte_carlo_simulation initial_value drift volatility 0 years monthly_contribution
        num_simulations false shocks := by
  unfold run_monte_carlo_simulation
  congr 1 <;> funext day i <;> rw [path_state_zero_yield_reinvest]

/-- C6: when the estimator reported a zero initial value, the button handler
surfaces the error message and never calls the simulator, so no ensemble is
produced. -/
theorem C6_empty_portfolio_not_simulated (stats : ℝ × ℝ × ℝ × ℝ) (years : ℕ)
    (monthly_contribution : ℝ) (num_simulations : ℕ) (reinvest_dividends : Bool)
    (shocks : ℕ → ℕ → ℝ) (h0 : stats.1 = 0) :
    simulate_button_handler stats years monthly_contribution num_simulations
        reinvest_dividends shocks =
      Except.error
        "Não foi possível calcular o valor inicial da sua carteira. Verifique os tickers." := by
  rw [simulate_button_handler, if_pos h0]

/-- Witness for C6 with the all-zero estimator result. -/
theorem C6_empty_portfolio_not_simulated_witness :
    simulate_button_handler (0, 0, 0, 0) 10 500 1000 true (fun _ _ => 0) =
      Except.error
        "Não foi possível calcular o valor inicial da sua carteira. Verifique os tickers." :=
  C6_empty_portfolio_not_simulated (0, 0, 0, 0) 10 500 1000 true (fun _ _ => 0) rfl

/-- C4 counterexample: with the invalid configuration
`monthly_contribution = -100` (and otherwise benign inputs) nothing rejects
the run: the handler invokes the simulator, the simulation runs to completion,
and the produced ensemble has the fully-simulated day-252 value
`10000 - 100 * 12 = 8800`. -/
theorem C4_counterexample_negative_contribution_accepted :
    simulate_button_handler (10000, 0, 0, 0) 1 (-100) 1 false (fun _ _ => 0) =
      Except.ok (run_monte_carlo_simulation 10000 0 0 0 1 (-100) 1 false fun _ _ => 0) ∧
    (run_monte_carlo_simulation 10000 0 0 0 1 (-100) 1 false fun _ _ => 0).1 252 0 = 8800 := by
  constructor
  · rw [simulate_button_handler, if_neg (by norm_num)]
  · show (path_state 10000 0 0 0 (-100) false _ 252).value = 8800
    rw [path_state_flat_value]
    norm_num

/-- C4 amended: neither the simulator nor the button handler validates the
configuration: for every horizon, simulation count and monthly contribution
(including zero horizons, zero simulation counts and negative contributions),
whenever the initial value is nonzero the handler runs the simulator and
returns its ensemble. -/
theorem C4_no_configuration_validation (stats : ℝ × ℝ × ℝ × ℝ) (years : ℕ)
    (monthly_contribution : ℝ) (num_simulations : ℕ) (reinvest_dividends : Bool)
    (shocks : ℕ → ℕ → ℝ) (h : stats.1 ≠ 0) :
    simulate_button_handler stats years monthly_contribution num_simulations
        reinvest_dividends shocks =
      Except.ok (run_monte_carlo_simulation stats.1 stats.2.1 stats.2.2.1 stats.2.2.2 years
        monthly_contribution num_simulations reinvest_dividends shocks) := by
  rw [simulate_button_handler, if_neg h]

/-- Witness for the amended C4 at an invalid configuration: zero horizon, zero
simulations and a negative contribution are all accepted. -/
theorem C4_no_configuration_validation_witness :
    simulate_button_handler (10000, 0, 0, 0) 0 (-100) 0 false (fun _ _ => 0) =
      Except.ok (run_monte_carlo_simulation 10000 0 0 0 0 (-100) 0 false fun _ _ => 0) :=
  C4_no_configuration_validation (10000, 0, 0, 0) 0 (-100) 0 false (fun _ _ => 0) (by norm_num)

/-- Outcome of `yf.Ticker(ticker_sa).info` followed by
`info.get('dividendYield', 0) or 0` inside the yield loop of
`get_portfolio_stats`: either the fetch succeeds with an optional yield value
(`None` and a missing key both behave as 0 through `or 0`), or it raises one
of the caught `KeyError`/`IndexError` exceptions. -/
inductive FetchResult where
  | ok (dy : Option ℝ)
  | err

/-- Embedding of `latest_prices.get(x + '.SA')`: `latest_prices` is the last
row of the downloaded `hist_data` frame, whose columns are `cols`; a ticker
absent from the frame has no latest price. -/
def latest_price (cols : List String) (price : String → ℕ → ℝ) (ndays : ℕ)
    (tk : String) : Option ℝ :=
  if tk ∈ cols then some (price tk (ndays - 1)) else none

/-- Embedding of `p_df.dropna(subset=['Preco Atual'], inplace=True)`: the
holdings (pairs of `Ativo` and `Quantidade`) whose looked-up latest price is
present. -/
def priced_holdings (holdings : List (String × ℝ)) (cols : List String)
    (price : String → ℕ → ℝ) (ndays : ℕ) : List (String × ℝ) :=
  holdings.filter fun h => (latest_price cols price ndays (h.1 ++ ".SA")).isSome

/-- Embedding of the `Valor Atual` column: `Quantidade * Preco Atual`. -/
def valor_atual (price : String → ℕ → ℝ) (ndays : ℕ) (h : String × ℝ) : ℝ :=
  h.2 * price (h.1 ++ ".SA") (ndays - 1)

/-- Embedding of `initial_value = p_df['Valor Atual'].sum()` (taken after the
dropna step). -/
def initial_value_of (holdings : List (String × ℝ)) (cols : List String)
    (price : String → ℕ → ℝ) (ndays : ℕ) : ℝ :=
  ((priced_holdings holdings cols price ndays).map (valor_atual price ndays)).sum

/-- Embedding of the `Peso` column: `Valor Atual / initial_value`. -/
def peso (holdings : List (String × ℝ)) (cols : List String)
    (price : String → ℕ → ℝ) (ndays : ℕ) (h : String × ℝ) : ℝ :=
  valor_atual price ndays h / initial_value_of holdings cols price ndays

/-- Embedding of one entry of `hist_data.pct_change()`: the simple daily
return `price[t] / price[t-1] - 1` of one column. -/
def daily_return_of (price : String → ℕ → ℝ) (tk : String) (t : ℕ) : ℝ :=
  price tk t / price tk (t - 1) - 1

/-- Embedding of `portfolio_daily_returns = (daily_returns * weights).sum(axis=1)`:
for each trading day `t` in `1 .. ndays-1` (row 0 of `pct_change` is dropped
by `dropna`), the weight-blended sum of the holdings' simple daily returns —
one single portfolio-level series. -/
def portfolio_daily_returns (holdings : List (String × ℝ)) (cols : List String)
    (price : String → ℕ → ℝ) (ndays : ℕ) : List ℝ :=
  (List.range (ndays - 1)).map fun j =>
    ((priced_holdings holdings cols price ndays).map fun h =>
      peso holdings cols price ndays h * daily_return_of price (h.1 ++ ".SA") (j + 1)).sum

/-- Embedding of `pandas.Series.mean()`. -/
def series_mean (xs : List ℝ) : ℝ := xs.sum / xs.length

/-- Embedding of `pandas.Series.std()` with its default `ddof=1` (sample
standard deviation). -/
def series_std (xs : List ℝ) : ℝ :=
  Real.sqrt ((xs.map fun x => (x - series_mean xs) ^ 2).sum / ((xs.length : ℝ) - 1))

/-- Embedding of `dy = info.get('dividendYield', 0) or 0` followed by
`if dy > 1: dy /= 100`: a missing yield counts as 0 and a value above 1 is
read as a percentage. -/
def adjusted_yield (o : Option ℝ) : ℝ :=
  let dy := o.getD 0
  if dy > 1 then dy / 100 else dy

/-- Embedding of one iteration of the `for ticker_sa in tickers_sa` yield
loop: an exception from the fetch or from the `.loc[...].iloc[0]` weight
lookup (the ticker was dropped from `p_df`) is caught and the holding
contributes 0; otherwise the adjusted yield times the holding's weight is
accumulated. -/
def yield_contribution (holdings : List (String × ℝ)) (cols : List String)
    (price : String → ℕ → ℝ) (ndays : ℕ) (yields : String → FetchResult)
    (h : String × ℝ) : ℝ :=
  match yields (h.1 ++ ".SA") with
  | FetchResult.err => 0
  | FetchResult.ok o =>
      match (priced_holdings holdings cols price ndays).find? (fun h' => h'.1 == h.1) with
      | none => 0
      | some hrow => adjusted_yield o * peso holdings cols price ndays hrow

/-- Embedding of the full `total_yield` accumulation over `tickers_sa` (one
iteration per holding of the original portfolio, dropped or not). -/
def total_yield_of (holdings : List (String × ℝ)) (cols : List String)
    (price : String → ℕ → ℝ) (ndays : ℕ) (yields : String → FetchResult) : ℝ :=
  (holdings.map (yield_contribution holdings cols price ndays yields)).sum

/-- Embedding of `get_portfolio_stats`: the portfolio is the list of
`(Ativo, Quantidade)` rows, `cols` are the columns of the downloaded
`hist_data` frame, `price tk t` its closing price of column `tk` at row `t`
(`ndays` rows in all), and `yields` the per-ticker dividend-yield fetch
outcome.  Returns `(initial_value, drift, volatility, total_yield)`, or the
all-zero tuple on an empty portfolio, an empty history, or a zero initial
value. -/
def get_portfolio_stats (holdings : List (String × ℝ)) (cols : List String)
    (price : String → ℕ → ℝ) (ndays : ℕ) (yields : String → FetchResult) :
    ℝ × ℝ × ℝ × ℝ :=
  if holdings = [] then (0, 0, 0, 0)
  else if ndays = 0 then (0, 0, 0, 0)
  else if initial_value_of holdings cols price ndays = 0 then (0, 0, 0, 0)
  else
    (initial_value_of holdings cols price ndays,
     series_mean (portfolio_daily_returns holdings cols price ndays),
     series_std (portfolio_daily_returns holdings cols price ndays),
     total_yield_of holdings cols price ndays yields)

/-- Alternative estimator written from the claim's "rather than" branch (not
from the source): compute each holding's own sample standard deviation of
daily returns and weight-average those scalars. -/
def per_holding_std_weight_average (holdings : List (String × ℝ)) (cols : List String)
    (price : String → ℕ → ℝ) (ndays : ℕ) : ℝ :=
  ((priced_holdings holdings cols price ndays).map fun h =>
    peso holdings cols price ndays h *
      series_std ((List.range (ndays - 1)).map fun j =>
        daily_return_of price (h.1 ++ ".SA") (j + 1))).sum

/-- Concrete two-holding portfolio used by several concrete instances. -/
def sepHoldings : List (String × ℝ) := [("AAAA", 1), ("BBBB", 1)]

/-- Concrete history columns: both tickers downloaded. -/
def sepCols : List String := ["AAAA.SA", "BBBB.SA"]

/-- Concrete three-day price history with perfectly anti-correlated daily
returns (+10 percent then -10 percent for AAAA, the reverse for BBBB) and a
common final price. -/
def sepPrice : String → ℕ → ℝ := fun tk t =>
  if tk = "AAAA.SA" then (if t = 0 then 10 else if t = 1 then 11 else 99 / 10)
  else if t = 0 then 10 else if t = 1 then 9 else 99 / 10

/-- Concrete flat price history: every ticker costs 10 every day. -/
def flatPrice : String → ℕ → ℝ := fun _ _ => 10

/-- Concrete yield table: every fetch succeeds with no dividendYield key. -/
def okNoneYields : String → FetchResult := fun _ => FetchResult.ok none

/-- C3: for every input passing the estimator's guards, the reported drift and
volatility are the mean and the sample standard deviation of the single
portfolio-level daily return series (the weight-blended sum of the holdings'
simple daily returns); and this differs from weight-averaging each holding's
individually-computed standard deviation, as the concrete anti-correlated
two-holding portfolio shows. -/
theorem C3_stats_on_portfolio_series (holdings : List (String × ℝ)) (cols : List String)
    (price : String → ℕ → ℝ) (ndays : ℕ) (yields : String → FetchResult)
    (h1 : holdings ≠ []) (h2 : ndays ≠ 0)
    (h3 : initial_value_of holdings cols price ndays ≠ 0) :
    (get_portfolio_stats holdings cols price ndays yields).2.1 =
      series_mean (portfolio_daily_returns holdings cols price ndays) ∧
    (get_portfolio_stats holdings cols price ndays yields).2.2.1 =
      series_std (portfolio_daily_returns holdings cols price ndays) ∧
    (get_portfolio_stats sepHoldings sepCols sepPrice 3 okNoneYields).2.2.1 ≠
      per_holding_std_weight_average sepHoldings sepCols sepPrice 3 := by
  have hsep1 : sepHoldings ≠ [] := by simp [sepHoldings]
  have hsep3 : initial_value_of sepHoldings sepCols sepPrice 3 ≠ 0 := by
    simp [initial_value_of, priced_holdings, latest_price, sepHoldings, sepCols, valor_atual,
      sepPrice]
  refine ⟨?_, ?_, ?_⟩
  · simp only [get_portfolio_stats, if_neg h1, if_neg h2, if_neg h3]
  · simp only [get_portfolio_stats, if_neg h1, if_neg h2, if_neg h3]
  · have hg : (get_portfolio_stats sepHoldings sepCols sepPrice 3 okNoneYields).2.2.1
        = series_std (portfolio_daily_returns sepHoldings sepCols sepPrice 3) := by
      simp only [get_portfolio_stats, if_neg hsep1, if_neg (by norm_num : (3 : ℕ) ≠ 0),
        if_neg hsep3]
    have hcombined : portfolio_daily_returns sepHoldings sepCols sepPrice 3 = [0, 0] := by
      simp [portfolio_daily_returns, priced_holdings, latest_price, sepHoldings, sepCols,
        peso, valor_atual, initial_value_of, daily_return_of, sepPrice, List.range_succ]
      norm_num
    have hzero : series_std (portfolio_daily_returns sepHoldings sepCols sepPrice 3) = 0 := by
      rw [hcombined]
      simp [series_std, series_mean]
    have halt : per_holding_std_weight_average sepHoldings sepCols sepPrice 3
        = Real.sqrt (1 / 50) := by
      simp [per_holding_std_weight_average, priced_holdings, latest_price, sepHoldings,
        sepCols, peso, valor_atual, initial_value_of, daily_return_of, sepPrice,
        List.range_succ, series_std, series_mean]
      norm_num
      ring
    rw [hg, hzero, halt]
    exact ne_of_lt (Real.sqrt_pos.mpr (by norm_num))

/-- Witness for C3 at the concrete anti-correlated portfolio. -/
theorem C3_stats_on_portfolio_series_witness :
    (get_portfolio_stats sepHoldings sepCols sepPrice 3 okNoneYields).2.1 =
      series_mean (portfolio_daily_returns sepHoldings sepCols sepPrice 3) ∧
    (get_portfolio_stats sepHoldings sepCols sepPrice 3 okNoneYields).2.2.1 =
      series_std (portfolio_daily_returns sepHoldings sepCols sepPrice 3) ∧
    (get_portfolio_stats sepHoldings sepCols sepPrice 3 okNoneYields).2.2.1 ≠
      per_holding_std_weight_average sepHoldings sepCols sepPrice 3 :=
  C3_stats_on_portfolio_series sepHoldings sepCols sepPrice 3 okNoneYields
    (by simp [sepHoldings]) (by norm_num)
    (by
      simp [initial_value_of, priced_holdings, latest_price, sepHoldings, sepCols, valor_atual,
        sepPrice])

/-- Concrete history columns in which only AAAA was downloaded, so holding
BBBB has no resolvable latest price. -/
def c5Cols : List String := ["AAAA.SA"]

/-- C5 counterexample: on a portfolio whose second holding has no resolvable
price, the estimator does not fail: it silently drops the holding, computes
the weights over the remaining value only (AAAA's internal weight becomes 1,
although its share of the two supplied holdings was 1/2), and returns an
ordinary result. -/
theorem C5_counterexample_unpriced_holding_accepted :
    get_portfolio_stats sepHoldings c5Cols flatPrice 3 okNoneYields = (10, 0, 0, 0) ∧
    priced_holdings sepHoldings c5Cols flatPrice 3 = [("AAAA", 1)] ∧
    peso sepHoldings c5Cols flatPrice 3 ("AAAA", 1) = 1 := by
  have hpriced : priced_holdings sepHoldings c5Cols flatPrice 3 = [("AAAA", 1)] := by
    simp [priced_holdings, latest_price, sepHoldings, c5Cols]
  have hinit : initial_value_of sepHoldings c5Cols flatPrice 3 = 10 := by
    simp [initial_value_of, hpriced, valor_atual, flatPrice]
  refine ⟨?_, hpriced, ?_⟩
  · rw [get_portfolio_stats, if_neg (by simp [sepHoldings]), if_neg (by norm_num),
      if_neg (by rw [hinit]; norm_num)]
    have hcombined : portfolio_daily_returns sepHoldings c5Cols flatPrice 3 = [0, 0] := by
      simp [portfolio_daily_returns, hpriced, peso, valor_atual, initial_value_of,
        daily_return_of, flatPrice, List.range_succ]
    have hyield : total_yield_of sepHoldings c5Cols flatPrice 3 okNoneYields = 0 := by
      simp [total_yield_of, yield_contribution, okNoneYields, hpriced, adjusted_yield,
        sepHoldings, List.find?]
    rw [hinit, hcombined, hyield]
    simp [series_std, series_mean]
  · rw [peso, hinit]
    simp [valor_atual, flatPrice]

/-- C5 amended: whenever the estimator's zero-value guard passes, the weights
it computes over the surviving (priced) holdings sum to exactly 1 — the
estimator renormalizes by construction and has no rejection path. -/
theorem C5_weights_sum_to_one (holdings : List (String × ℝ)) (cols : List String)
    (price : String → ℕ → ℝ) (ndays : ℕ)
    (h3 : initial_value_of holdings cols price ndays ≠ 0) :
    ((priced_holdings holdings cols price ndays).map (peso holdings cols price ndays)).sum
      = 1 := by
  have hmap : (priced_holdings holdings cols price ndays).map (peso holdings cols price ndays)
      = (priced_holdings holdings cols price ndays).map
          (fun h => valor_atual price ndays h *
            (initial_value_of holdings cols price ndays)⁻¹) := by
    apply List.map_congr_left
    intro a _
    simp only [peso, div_eq_mul_inv]
  rw [hmap, List.sum_map_mul_right]
  have hI : ((priced_holdings holdings cols price ndays).map (valor_atual price ndays)).sum
      = initial_value_of holdings cols price ndays := rfl
  rw [hI]
  exact mul_inv_cancel₀ h3

/-- Witness for the amended C5 at the concrete partially-priced portfolio. -/
theorem C5_weights_sum_to_one_witness :
    ((priced_holdings sepHoldings c5Cols flatPrice 3).map
      (peso sepHoldings c5Cols flatPrice 3)).sum = 1 :=
  C5_weights_sum_to_one sepHoldings c5Cols flatPrice 3
    (by simp [initial_value_of, priced_holdings, latest_price, sepHoldings, c5Cols,
      valor_atual, flatPrice])

/-- Concrete yield table: AAAA's fetch reports a dividendYield of 5 (a
percentage figure above 1), BBBB's fetch raises one of the caught
exceptions. -/
def c10Yields : String → FetchResult := fun tk =>
  if tk = "AAAA.SA" then FetchResult.ok (some 5) else FetchResult.err

/-- C10: for every input passing the estimator's guards, the blended yield is
the sum over all supplied holdings of: 0 when the fetch raised
KeyError/IndexError or the holding was dropped from the priced table, and
otherwise the fetched yield — divided by 100 when above 1 — times the
holding's weight; on the concrete portfolio with one percentage-style yield
of 5 and one failing fetch the blend is 0.05 * 1/2 = 1/40. -/
theorem C10_yield_blending (holdings : List (String × ℝ)) (cols : List String)
    (price : String → ℕ → ℝ) (ndays : ℕ) (yields : String → FetchResult)
    (h1 : holdings ≠ []) (h2 : ndays ≠ 0)
    (h3 : initial_value_of holdings cols price ndays ≠ 0) :
    (get_portfolio_stats holdings cols price ndays yields).2.2.2 =
      (holdings.map fun h =>
        match yields (h.1 ++ ".SA") with
        | FetchResult.err => 0
        | FetchResult.ok o =>
            match (priced_holdings holdings cols price ndays).find? (fun h' => h'.1 == h.1) with
            | none => 0
            | some hrow =>
                (if o.getD 0 > 1 then o.getD 0 / 100 else o.getD 0) *
                  peso holdings cols price ndays hrow).sum ∧
    (get_portfolio_stats sepHoldings sepCols flatPrice 3 c10Yields).2.2.2 = 1 / 40 := by
  constructor
  · simp only [get_portfolio_stats, if_neg h1, if_neg h2, if_neg h3]
    show total_yield_of holdings cols price ndays yields = _
    unfold total_yield_of
    refine congrArg List.sum (List.map_congr_left ?_)
    intro a _
    rfl
  · have hinit : initial_value_of sepHoldings sepCols flatPrice 3 = 20 := by
      simp [initial_value_of, priced_holdings, latest_price, sepHoldings, sepCols,
        valor_atual, flatPrice]
      norm_num
    rw [get_portfolio_stats, if_neg (by simp [sepHoldings]), if_neg (by norm_num),
      if_neg (by rw [hinit]; norm_num)]
    show total_yield_of sepHoldings sepCols flatPrice 3 c10Yields = 1 / 40
    simp [total_yield_of, yield_contribution, c10Yields, priced_holdings, latest_price,
      sepHoldings, sepCols, adjusted_yield, peso, valor_atual, initial_value_of, flatPrice,
      List.find?]
    norm_num

/-- Witness for C10 at the concrete portfolio with a percentage-style yield
and a failing fetch. -/
theorem C10_yield_blending_witness :
    (get_portfolio_stats sepHoldings sepCols flatPrice 3 c10Yields).2.2.2 =
      (sepHoldings.map fun h =>
        match c10Yields (h.1 ++ ".SA") with
        | FetchResult.err => 0
        | FetchResult.ok o =>
            match (priced_holdings sepHoldings sepCols flatPrice 3).find?
                (fun h' => h'.1 == h.1) with
            | none => 0
            | some hrow =>
                (if o.getD 0 > 1 then o.getD 0 / 100 else o.getD 0) *
                  peso sepHoldings sepCols flatPrice 3 hrow).sum ∧
    (get_portfolio_stats sepHoldings sepCols flatPrice 3 c10Yields).2.2.2 = 1 / 40 :=
  C10_yield_blending sepHoldings sepCols flatPrice 3 c10Yields (by simp [sepHoldings])
    (by norm_num)
    (by
      have h : initial_value_of sepHoldings sepCols flatPrice 3 = 20 := by
        simp [initial_value_of, priced_holdings, latest_price, sepHoldings, sepCols,
          valor_atual, flatPrice]
        norm_num
      rw [h]
      norm_num)

/-- Linear interpolation into a sorted sample at fractional index `pos`, the
core of numpy's default percentile method: take the floor index, and
interpolate toward the next entry by the fractional part (when `pos` is the
last valid index the fractional part is zero and the out-of-range read is
multiplied by zero). -/
def lin_interp (s : List ℝ) (pos : ℝ) : ℝ :=
  s.getD ⌊pos⌋₊ 0 + (pos - ⌊pos⌋₊) * (s.getD (⌊pos⌋₊ + 1) 0 - s.getD ⌊pos⌋₊ 0)

/-- Embedding of `np.percentile(xs, q)` with the default linear-interpolation
method: sort ascending and linearly interpolate at index `q/100 * (n-1)`. -/
def np_percentile (q : ℝ) (xs : List ℝ) : ℝ :=
  lin_interp (List.insertionSort (· ≤ ·) xs) (q / 100 * ((xs.length : ℝ) - 1))

/-- Entries of a sorted list are monotone in the index (with default 0 for
the out-of-range read, restricted here to in-range indices). -/
lemma sorted_getD_mono {s : List ℝ} (hs : List.Sorted (· ≤ ·) s) {i j : ℕ}
    (hij : i ≤ j) (hj : j < s.length) : s.getD i 0 ≤ s.getD j 0 := by
  have hi : i < s.length := lt_of_le_of_lt hij hj
  rw [List.getD_eq_getElem s 0 hi, List.getD_eq_getElem s 0 hj]
  have := hs.rel_get_of_le (a := ⟨i, hi⟩) (b := ⟨j, hj⟩) hij
  simpa using this

/-- The interpolated value is at least the entry at the floor index. -/
lemma lin_interp_lower {s : List ℝ} (hs : List.Sorted (· ≤ ·) s) {pos : ℝ}
    (h0 : 0 ≤ pos) (hub : pos ≤ (s.length : ℝ) - 1) :
    s.getD ⌊pos⌋₊ 0 ≤ lin_interp s pos := by
  have hfl : (⌊pos⌋₊ : ℝ) ≤ pos := Nat.floor_le h0
  by_cases hcase : ⌊pos⌋₊ + 1 < s.length
  · have hd : s.getD ⌊pos⌋₊ 0 ≤ s.getD (⌊pos⌋₊ + 1) 0 :=
      sorted_getD_mono hs (Nat.le_succ _) hcase
    have : 0 ≤ (pos - ⌊pos⌋₊) * (s.getD (⌊pos⌋₊ + 1) 0 - s.getD ⌊pos⌋₊ 0) :=
      mul_nonneg (by linarith) (by linarith)
    unfold lin_interp
    linarith
  · have hge : ((⌊pos⌋₊ : ℝ)) ≥ (s.length : ℝ) - 1 := by
      push_neg at hcase
      have : (s.length : ℝ) ≤ (⌊pos⌋₊ : ℝ) + 1 := by exact_mod_cast hcase
      linarith
    have hpos : pos = (⌊pos⌋₊ : ℝ) := le_antisymm (by linarith) hfl
    unfold lin_interp
    rw [← hpos]
    simp

/-- The interpolated value is at most the entry one past the floor index,
when that entry is in range. -/
lemma lin_interp_upper {s : List ℝ} (hs : List.Sorted (· ≤ ·) s) {pos : ℝ}
    (h0 : 0 ≤ pos) (hcase : ⌊pos⌋₊ + 1 < s.length) :
    lin_interp s pos ≤ s.getD (⌊pos⌋₊ + 1) 0 := by
  have hfl : (⌊pos⌋₊ : ℝ) ≤ pos := Nat.floor_le h0
  have hfr : pos - (⌊pos⌋₊ : ℝ) < 1 := by
    have := Nat.lt_floor_add_one pos
    linarith
  have hd : s.getD ⌊pos⌋₊ 0 ≤ s.getD (⌊pos⌋₊ + 1) 0 :=
    sorted_getD_mono hs (Nat.le_succ _) hcase
  have : (pos - ⌊pos⌋₊) * (s.getD (⌊pos⌋₊ + 1) 0 - s.getD ⌊pos⌋₊ 0) ≤
      1 * (s.getD (⌊pos⌋₊ + 1) 0 - s.getD ⌊pos⌋₊ 0) :=
    mul_le_mul_of_nonneg_right (by linarith) (by linarith)
  unfold lin_interp
  linarith

/-- Linear interpolation into a sorted sample is monotone in the fractional
index over the valid range. -/
lemma lin_interp_mono {s : List ℝ} (hs : List.Sorted (· ≤ ·) s) {p₁ p₂ : ℝ}
    (h0 : 0 ≤ p₁) (h12 : p₁ ≤ p₂) (hub : p₂ ≤ (s.length : ℝ) - 1) :
    lin_interp s p₁ ≤ lin_interp s p₂ := by
  have h0₂ : 0 ≤ p₂ := le_trans h0 h12
  have hub₁ : p₁ ≤ (s.length : ℝ) - 1 := le_trans h12 hub
  have hfl₁ : (⌊p₁⌋₊ : ℝ) ≤ p₁ := Nat.floor_le h0
  have hfl₂ : (⌊p₂⌋₊ : ℝ) ≤ p₂ := Nat.floor_le h0₂
  have hl2 : ⌊p₂⌋₊ < s.length := by
    have h1 : (⌊p₂⌋₊ : ℝ) < (s.length : ℝ) := by linarith
    exact_mod_cast h1
  rcases lt_or_eq_of_le (Nat.floor_le_floor h12) with hlt | heq
  · have hl1succ : ⌊p₁⌋₊ + 1 < s.length := by omega
    calc lin_interp s p₁ ≤ s.getD (⌊p₁⌋₊ + 1) 0 := lin_interp_upper hs h0 hl1succ
      _ ≤ s.getD ⌊p₂⌋₊ 0 := sorted_getD_mono hs (by omega) hl2
      _ ≤ lin_interp s p₂ := lin_interp_lower hs h0₂ hub
  · by_cases hcase : ⌊p₁⌋₊ + 1 < s.length
    · unfold lin_interp
      rw [← heq]
      have hd : 0 ≤ s.getD (⌊p₁⌋₊ + 1) 0 - s.getD ⌊p₁⌋₊ 0 := by
        have := sorted_getD_mono hs (Nat.le_succ ⌊p₁⌋₊) hcase
        linarith
      have : (p₁ - ⌊p₁⌋₊) * (s.getD (⌊p₁⌋₊ + 1) 0 - s.getD ⌊p₁⌋₊ 0) ≤
          (p₂ - ⌊p₁⌋₊) * (s.getD (⌊p₁⌋₊ + 1) 0 - s.getD ⌊p₁⌋₊ 0) :=
        mul_le_mul_of_nonneg_right (by linarith) hd
      linarith
    · have hsl : (s.length : ℝ) ≤ (⌊p₁⌋₊ : ℝ) + 1 := by
        push_neg at hcase
        exact_mod_cast hcase
      have hp12 : p₁ = p₂ := le_antisymm h12 (by linarith)
      rw [hp12]

/-- Linear-interpolation percentiles of a nonempty sample are monotone in the
requested percentile. -/
lemma np_percentile_mono {xs : List ℝ} (hne : xs ≠ []) {q₁ q₂ : ℝ}
    (h0 : 0 ≤ q₁) (h12 : q₁ ≤ q₂) (h100 : q₂ ≤ 100) :
    np_percentile q₁ xs ≤ np_percentile q₂ xs := by
  have hlen : (List.insertionSort (· ≤ ·) xs).length = xs.length :=
    (List.perm_insertionSort (· ≤ ·) xs).length_eq
  have hn : 1 ≤ (xs.length : ℝ) := by
    have : 0 < xs.length := List.length_pos.mpr hne
    exact_mod_cast this
  have hsorted : List.Sorted (· ≤ ·) (List.insertionSort (· ≤ ·) xs) :=
    List.sorted_insertionSort (· ≤ ·) xs
  unfold np_percentile
  apply lin_interp_mono hsorted
  · exact mul_nonneg (by linarith) (by linarith)
  · exact mul_le_mul_of_nonneg_right (by linarith) (by linarith)
  · rw [hlen]
    have : q₂ / 100 ≤ 1 := by linarith
    nlinarith

/-- C9: on any ensemble produced by the simulator with at least one
simulation, the linear-interpolation percentile bands over the
simulation-index axis satisfy P10 ≤ P50 ≤ P90 on every trading day. -/
theorem C9_percentile_cone_monotone (initial_value drift volatility dividend_yield : ℝ)
    (years : ℕ) (monthly_contribution : ℝ) (num_simulations : ℕ) (reinvest_dividends : Bool)
    (shocks : ℕ → ℕ → ℝ) (d : ℕ) (hns : 0 < num_simulations) :
    np_percentile 10 ((List.range num_simulations).map fun i =>
        (run_monte_carlo_simulation initial_value drift volatility dividend_yield years
          monthly_contribution num_simulations reinvest_dividends shocks).1 d i) ≤
      np_percentile 50 ((List.range num_simulations).map fun i =>
        (run_monte_carlo_simulation initial_value drift volatility dividend_yield years
          monthly_contribution num_simulations reinvest_dividends shocks).1 d i) ∧
    np_percentile 50 ((List.range num_simulations).map fun i =>
        (run_monte_carlo_simulation initial_value drift volatility dividend_yield years
          monthly_contribution num_simulations reinvest_dividends shocks).1 d i) ≤
      np_percentile 90 ((List.range num_simulations).map fun i =>
        (run_monte_carlo_simulation initial_value drift volatility dividend_yield years
          monthly_contribution num_simulations reinvest_dividends shocks).1 d i) := by
  have hne : ((List.range num_simulations).map fun i =>
      (run_monte_carlo_simulation initial_value drift volatility dividend_yield years
        monthly_contribution num_simulations reinvest_dividends shocks).1 d i) ≠ [] := by
    apply List.length_pos.mp
    simpa using hns
  exact ⟨np_percentile_mono hne (by norm_num) (by norm_num) (by norm_num),
    np_percentile_mono hne (by norm_num) (by norm_num) (by norm_num)⟩

/-- Witness for C9 with a single simulation. -/
theorem C9_percentile_cone_monotone_witness :
    np_percentile 10 ((List.range 1).map fun i =>
        (run_monte_carlo_simulation 100 0 0 0 1 0 1 false fun _ _ => 0).1 0 i) ≤
      np_percentile 50 ((List.range 1).map fun i =>
        (run_monte_carlo_simulation 100 0 0 0 1 0 1 false fun _ _ => 0).1 0 i) ∧
    np_percentile 50 ((List.range 1).map fun i =>
        (run_monte_carlo_simulation 100 0 0 0 1 0 1 false fun _ _ => 0).1 0 i) ≤
      np_percentile 90 ((List.range 1).map fun i =>
        (run_monte_carlo_simulation 100 0 0 0 1 0 1 false fun _ _ => 0).1 0 i) :=
  C9_percentile_cone_monotone 100 0 0 0 1 0 1 false (fun _ _ => 0) 0 (by norm_num)
